import Mathlib

set_option maxRecDepth 100000

/-!
Verification of the zpark v1 API (`zpark/v1.py`).

The development shallowly embeds the three request handlers of the
repository — `Alert.post`, `Ping.get` and `Webhook.post` — together with
the pieces of the Python standard library and web framework their
behaviour depends on: `int()` string conversion, `dict.get`,
`hmac.new(..., digestmod=hashlib.sha1).hexdigest()`,
`hmac.compare_digest`, and the request/config access surface of Flask.

Machine integers are modelled as `Nat` with explicit reduction modulo
`2 ^ 32` where the SHA-1 rounds overflow; raw request bodies are
`List Nat` (byte values); fallible Python operations return
`Except PyExc _` where `PyExc` names the exception class that would be
raised.
-/

/-! ### 32-bit word arithmetic (modelling Python/C unsigned overflow) -/

def w32 (n : Nat) : Nat := n % 4294967296

def rotl32 (x n : Nat) : Nat :=
  w32 ((x <<< n) ||| (x >>> (32 - n)))

/-! ### SHA-1 (`hashlib.sha1`), bytes in, 20-byte digest out -/

/-- Big-endian packing of bytes into 32-bit words (4 bytes per word). -/
def bytesToWords : List Nat → List Nat
  | b0 :: b1 :: b2 :: b3 :: rest =>
      ((b0 <<< 24) ||| (b1 <<< 16) ||| (b2 <<< 8) ||| b3) :: bytesToWords rest
  | _ => []

/-- Big-endian rendering of one 32-bit word as 4 bytes. -/
def wordToBytes (x : Nat) : List Nat :=
  [(x >>> 24) % 256, (x >>> 16) % 256, (x >>> 8) % 256, x % 256]

/-- Big-endian rendering of the 64-bit message bit-length. -/
def lenToBytes64 (n : Nat) : List Nat :=
  [(n >>> 56) % 256, (n >>> 48) % 256, (n >>> 40) % 256, (n >>> 32) % 256,
   (n >>> 24) % 256, (n >>> 16) % 256, (n >>> 8) % 256, n % 256]

/-- SHA-1 padding: append `0x80`, zero-fill to 56 mod 64, append the
bit length as 8 big-endian bytes. -/
def sha1Pad (msg : List Nat) : List Nat :=
  let padLen := (64 - ((msg.length + 9) % 64)) % 64
  msg ++ (128 :: List.replicate padLen 0) ++ lenToBytes64 (8 * msg.length)

/-- Split a byte list into 64-byte blocks (fuel-indexed structural
recursion; the fuel `l.length` is always sufficient since every step
consumes at least one element). -/
def chunks64Aux : Nat → List Nat → List (List Nat)
  | 0, _ => []
  | _, [] => []
  | fuel + 1, a :: rest => ((a :: rest).take 64) :: chunks64Aux fuel (rest.drop 63)

/-- Split a byte list into 64-byte blocks. -/
def chunks64 (l : List Nat) : List (List Nat) :=
  chunks64Aux l.length l

/-- The SHA-1 round function: choice, parity, majority, parity. -/
def sha1F (t b c d : Nat) : Nat :=
  if t < 20 then (b &&& c) ||| ((b ^^^ 4294967295) &&& d)
  else if t < 40 then b ^^^ c ^^^ d
  else if t < 60 then (b &&& c) ||| (b &&& d) ||| (c &&& d)
  else b ^^^ c ^^^ d

/-- The SHA-1 round constants. -/
def sha1K (t : Nat) : Nat :=
  if t < 20 then 1518500249
  else if t < 40 then 1859775393
  else if t < 60 then 2400959708
  else 3395469782

/-- Extend the 16-word schedule by one word:
`W[t] = rotl1 (W[t-3] xor W[t-8] xor W[t-14] xor W[t-16])`. -/
def sha1NextW (w : List Nat) : Nat :=
  let n := w.length
  rotl32 ((w.getD (n - 3) 0) ^^^ (w.getD (n - 8) 0) ^^^
          (w.getD (n - 14) 0) ^^^ (w.getD (n - 16) 0)) 1

/-- Extend the message schedule by `n` words. -/
def sha1ExtendW (w : List Nat) : Nat → List Nat
  | 0 => w
  | n + 1 => sha1ExtendW (w ++ [sha1NextW w]) n

/-- One SHA-1 round: update the five-word state with word `wi` of the
schedule at round index `t`. -/
def sha1Round (st : Nat × Nat × Nat × Nat × Nat) (tw : Nat × Nat) :
    Nat × Nat × Nat × Nat × Nat :=
  let (a, b, c, d, e) := st
  let (t, wi) := tw
  (w32 (rotl32 a 5 + sha1F t b c d + e + sha1K t + wi), a, rotl32 b 30, c, d)

/-- Compress one 64-byte block into the running five-word state. -/
def sha1Block (h : Nat × Nat × Nat × Nat × Nat) (block : List Nat) :
    Nat × Nat × Nat × Nat × Nat :=
  let w := sha1ExtendW (bytesToWords block) 64
  let (a, b, c, d, e) := w.enum.foldl sha1Round h
  let (h0, h1, h2, h3, h4) := h
  (w32 (h0 + a), w32 (h1 + b), w32 (h2 + c), w32 (h3 + d), w32 (h4 + e))

/-- `hashlib.sha1(msg).digest()` as a list of 20 byte values. -/
def sha1 (msg : List Nat) : List Nat :=
  let h :=
    (chunks64 (sha1Pad msg)).foldl sha1Block
      (1732584193, 4023233417, 2562383102, 271733878, 3285377520)
  wordToBytes h.1 ++ wordToBytes h.2.1 ++ wordToBytes h.2.2.1 ++
    wordToBytes h.2.2.2.1 ++ wordToBytes h.2.2.2.2

/-! ### HMAC (`hmac.new(key, msg, digestmod=hashlib.sha1)`) -/

/-- HMAC-SHA1 over byte lists, per RFC 2104 with block size 64. -/
def hmacSha1 (key msg : List Nat) : List Nat :=
  let k0 := if key.length > 64 then sha1 key else key
  let k := k0 ++ List.replicate (64 - k0.length) 0
  sha1 ((k.map (fun b => b ^^^ 92)) ++ sha1 ((k.map (fun b => b ^^^ 54)) ++ msg))

/-- One byte as two lowercase hexadecimal characters (`.hexdigest()`). -/
def hexChar (n : Nat) : Char :=
  if n < 10 then Char.ofNat (48 + n) else Char.ofNat (87 + n)

/-- `.hexdigest()`: lowercase hexadecimal rendering of a byte list. -/
def hexDigest (bs : List Nat) : String :=
  String.mk (bs.foldr (fun b acc => hexChar (b / 16) :: hexChar (b % 16) :: acc) [])

/-- UTF-8 encoding of a string as byte values (`bytes(s, "utf-8")`). -/
def utf8Bytes (s : String) : List Nat :=
  s.data.flatMap fun c =>
    let n := c.toNat
    if n < 128 then [n]
    else if n < 2048 then [192 + n / 64, 128 + n % 64]
    else if n < 65536 then
      [224 + n / 4096, 128 + (n / 64) % 64, 128 + n % 64]
    else
      [240 + n / 262144, 128 + (n / 4096) % 64, 128 + (n / 64) % 64, 128 + n % 64]

/-! Test vectors (checked against `hashlib`/`hmac` in CPython 3.11). -/

theorem sha1_empty_vector :
    hexDigest (sha1 []) = "da39a3ee5e6b4b0d3255bfef95601890afd80709" := by rfl

theorem sha1_abc_vector :
    hexDigest (sha1 [97, 98, 99]) =
      "a9993e364706816aba3e25717850c26c9cd0d89d" := by rfl

theorem hmac_sha1_vector :
    hexDigest (hmacSha1 (utf8Bytes "key") (utf8Bytes "body")) =
      "70bbf6819d1037aa94ca7e7f537cbea25fe49283" := by rfl

theorem hmac_sha1_empty_vector :
    hexDigest (hmacSha1 [] []) =
      "fbdb1d1b18aa6c08324b7d64b71fb76370690e1d" := by rfl

/-! ### Python exception classes and values the handlers can raise -/

/-- Exception classes observable at the handler boundary. `badRequest`
stands for `werkzeug.exceptions.BadRequest`, raised by
`request.get_json()` on an unparseable body. -/
inductive PyExc where
  | typeError
  | valueError
  | attributeError
  | badRequest
deriving DecidableEq

/-- Parsed JSON values (`request.get_json()` results). JSON numbers are
modelled as integers; none of the verified behaviour depends on
fractional values. -/
inductive Json where
  | null
  | bool (b : Bool)
  | num (n : Int)
  | str (s : String)
  | arr (elems : List Json)
  | obj (fields : List (String × Json))

/-- `d.get(key, default)` on the result of `get_json()`: total on dicts,
an `AttributeError` on every non-dict value (`None`, numbers, strings,
booleans and lists have no `.get`). -/
def pyGet (j : Json) (key : String) (dflt : Json) : Except PyExc Json :=
  match j with
  | .obj fields => .ok (((fields.lookup key).getD dflt))
  | _ => .error .attributeError

/-! ### `int()` conversion of an optional header value -/

/-- Characters stripped by `int()` around a numeric literal (the ASCII
whitespace set; exotic Unicode whitespace is out of scope). -/
def isPyWs (c : Char) : Bool :=
  c.toNat = 32 || (9 ≤ c.toNat && c.toNat ≤ 13)

/-- Digit run with single underscores allowed between digits, as accepted
by `int()` (Python 3.6+): rejects leading/trailing/doubled underscores. -/
def pyDigitsGo (acc : Nat) : List Char → Option Nat
  | [] => some acc
  | c :: c2 :: rest =>
      if c.toNat = 95 then
        if c2.isDigit then pyDigitsGo (acc * 10 + (c2.toNat - 48)) rest else none
      else if c.isDigit then pyDigitsGo (acc * 10 + (c.toNat - 48)) (c2 :: rest)
      else none
  | [c] => if c.isDigit then some (acc * 10 + (c.toNat - 48)) else none

/-- Nonempty digit run (first character must be a digit). -/
def pyDigits : List Char → Option Nat
  | [] => none
  | c :: rest =>
      if c.isDigit then pyDigitsGo (c.toNat - 48) rest else none

/-- `int(s)` on a string: strip whitespace, optional sign, digit run
(ASCII decimal subset of Python's acceptance). `none` means
`ValueError`. -/
def pyIntOfStr (s : String) : Option Int :=
  let cs := (((s.data.dropWhile isPyWs).reverse).dropWhile isPyWs).reverse
  match cs with
  | c :: rest =>
      if c.toNat = 45 then (pyDigits rest).map (fun n => -(n : Int))
      else if c.toNat = 43 then (pyDigits rest).map (fun n => (n : Int))
      else (pyDigits cs).map (fun n => (n : Int))
  | [] => none

/-- `int(x)` applied to `request.headers.get(..., None)`: `int(None)`
raises `TypeError`; an unparseable string raises `ValueError`. -/
def pyInt : Option String → Except PyExc Int
  | none => .error .typeError
  | some s =>
      match pyIntOfStr s with
      | some i => .ok i
      | none => .error .valueError

/-! ### `hmac.compare_digest` on `str` arguments -/

/-- Whether every character of a string is ASCII. -/
def asciiStr (s : String) : Bool :=
  s.data.all (fun c => c.toNat < 128)

/-- `hmac.compare_digest(a, b)` on two `str` values: requires both to be
ASCII-only (otherwise CPython raises
`TypeError: comparing strings with non-ASCII characters is not
supported`); on ASCII inputs it is (timing-independent) string
equality. -/
def compareDigest (a b : String) : Except PyExc Bool :=
  if asciiStr a && asciiStr b then .ok (a == b) else .error .typeError

/-! ### Application configuration and the webhook request surface -/

/-- The process-wide configuration the handlers read
(`app.config` and the api token consumed by
`zpark.api_common.requires_api_token`). `sparkWebhookSecret = none`
models the `SPARK_WEBHOOK_SECRET` key being absent from `app.config`. -/
structure AppConfig where
  apiToken : String
  sparkWebhookSecret : Option String
  maxContentLength : Int
deriving DecidableEq

/-- An inbound webhook request as `Webhook.post` observes it:
the two headers it reads, the raw body bytes (`request.get_data()`),
and the outcome of `request.get_json()` on that body. The JSON outcome
is carried as a field because the framework's parser (content-type
handling included) is outside this repository; every theorem quantifies
over it. -/
structure WebhookRequest where
  contentLength : Option String
  sparkSignature : Option String
  body : List Nat
  jsonResult : Except PyExc Json

/-- What `Webhook.post` does with a request: return an error tuple
`({"error": ...}, status)`, hand the parsed payload to
`api_common.handle_spark_webhook`, or let an exception escape. -/
inductive WebhookOutcome where
  | reply (body : Json) (status : Nat)
  | dispatched (payload : Json)
  | exception (e : PyExc)

/-- The outcome of `Webhook.post` instrumented with whether the raw
body was materialized (`get_json`/`get_data`) and whether the HMAC was
computed over it. -/
structure WebhookResult where
  outcome : WebhookOutcome
  bodyRead : Bool
  hmacComputed : Bool

/-- The `({"error": msg}, status)` bodies `Webhook.post` builds. -/
def errorBody (msg : String) : Json :=
  .obj [("error", .str msg)]

/-- Shallow embedding of `zpark.v1.Webhook.post`, line for line:
`Content-Length` is fetched with default `None` and passed to `int()`
inside `try/except ValueError` (so `int(None)`ʼs `TypeError` escapes);
a truthy parsed length greater than `MAX_CONTENT_LENGTH` returns 413;
`get_json()` runs and `id`/`name` are extracted *before* the signature
block; with `SPARK_WEBHOOK_SECRET` configured, a missing
`X-Spark-Signature` returns 403, otherwise the lowercase hex HMAC-SHA1
of `get_data()` keyed with the secret is compared via `compare_digest`;
on success or with no secret configured the parsed payload goes to
`api_common.handle_spark_webhook`. -/
def webhook_post (cfg : AppConfig) (req : WebhookRequest) : WebhookResult :=
  match pyInt req.contentLength with
  | .error .valueError => ⟨.reply (errorBody "Bad request") 400, false, false⟩
  | .error e => ⟨.exception e, false, false⟩
  | .ok cl =>
    if cl ≠ 0 ∧ cl > cfg.maxContentLength then
      ⟨.reply (errorBody "Too big") 413, false, false⟩
    else
      match req.jsonResult with
      | .error e => ⟨.exception e, true, false⟩
      | .ok reqjson =>
        match pyGet reqjson "id" (.str "<Unknown>") with
        | .error e => ⟨.exception e, true, false⟩
        | .ok _whid =>
          match pyGet reqjson "name" (.str "<Unknown>") with
          | .error e => ⟨.exception e, true, false⟩
          | .ok _whname =>
            match cfg.sparkWebhookSecret with
            | some secret =>
              match req.sparkSignature with
              | none => ⟨.reply (errorBody "Unauthorized") 403, true, false⟩
              | some sparkhmac =>
                match compareDigest (hexDigest (hmacSha1 (utf8Bytes secret) req.body))
                    sparkhmac with
                | .error e => ⟨.exception e, true, true⟩
                | .ok false => ⟨.reply (errorBody "Unauthorized") 403, true, true⟩
                | .ok true => ⟨.dispatched reqjson, true, true⟩
            | none => ⟨.dispatched reqjson, true, false⟩

/-! ### The token guard and the `Alert`/`Ping` handlers -/

/-- Result of an authentication guard (spec §3 `AuthResult`). -/
inductive AuthResult where
  | authorized
  | denied (reason : String)
deriving DecidableEq

/-- Modelled from the spec: `zpark.api_common.requires_api_token` is not
part of `src/` (only its uses as a decorator are). Per §4.1, the guard
returns `Authorized` iff the designated header is present and exactly
equals the configured `apiToken`, and `Denied("missing token")` /
`Denied("invalid token")` otherwise. -/
def requires_api_token (cfg : AppConfig) (tokenHeader : Option String) : AuthResult :=
  match tokenHeader with
  | none => .denied "missing token"
  | some t => if t = cfg.apiToken then .authorized else .denied "invalid token"

/-- A single-quote character, used by Python `repr`. -/
def sQuote : String := String.singleton (Char.ofNat 39)

mutual

/-- Python `repr` of a parsed-JSON value (used by `str()` on container
values; quote-escaping inside strings is out of scope for the verified
behaviour, which only evaluates `repr` on scalars and flat
containers). -/
def pyRepr : Json → String
  | .null => "None"
  | .bool true => "True"
  | .bool false => "False"
  | .num n => toString n
  | .str s => sQuote ++ s ++ sQuote
  | .arr l => "[" ++ pyReprElems l ++ "]"
  | .obj l => "\x7b" ++ pyReprFields l ++ "\x7d"

def pyReprElems : List Json → String
  | [] => ""
  | [x] => pyRepr x
  | x :: y :: rest => pyRepr x ++ ", " ++ pyReprElems (y :: rest)

def pyReprFields : List (String × Json) → String
  | [] => ""
  | [(k, v)] => sQuote ++ k ++ sQuote ++ ": " ++ pyRepr v
  | (k, v) :: y :: rest => sQuote ++ k ++ sQuote ++ ": " ++ pyRepr v ++ ", " ++ pyReprFields (y :: rest)

end

/-- Python `str()` of a parsed-JSON value. -/
def pyStr : Json → String
  | .str s => s
  | j => pyRepr j

/-- `flask_restful.reqparse` conversion of a JSON value under
`type=str` with the default `nullable=True`: `None` is not cast
(`args[name]` stays `None`), every other value is coerced with
`str()` — the `self.type(value, ...)` cascade in `Argument.convert`
ends at `str(value)`, so non-string JSON values do *not* raise. -/
def convertStr : Json → Option String
  | .null => none
  | v => some (pyStr v)

/-- Key lookup in a parsed JSON body as `reqparse` performs it
(`name in source` / `source.get(name)`): only dict bodies contain
keys; non-dict bodies are modelled as containing none. -/
def jLookup (j : Json) (key : String) : Option Json :=
  match j with
  | .obj fields => fields.lookup key
  | _ => none

/-- Help text for the required `to` argument (source lines 40–41). -/
def helpTo : String :=
  "Identifier of person or Spark space to send the alert to. Required."

/-- Help text for the required `subject` argument (source lines 44–45). -/
def helpSubject : String :=
  "The subject (ie, first line) of text sent to the recipient. Required."

/-- The `400` body produced by `reqparse` for a missing required
argument with `help` set and `bundle_errors` off:
`abort(400, message={name: help})`. -/
def validationErrorBody (name help : String) : Json :=
  .obj [("message", .obj [(name, .str help)])]

/-- An inbound request as `Alert.post` observes it: the token header the
guard reads, and the outcome of parsing the request body as JSON. -/
structure AlertRequest where
  tokenHeader : Option String
  jsonResult : Except PyExc Json

/-- What `Alert.post` does with a request: the guard denies, an
exception escapes, `reqparse` aborts with a validation error, or
`api_common.send_spark_alert_message(to, subject, message)` is called
and its result returned unchanged. -/
inductive AlertOutcome where
  | tokenDenied (reason : String)
  | exception (e : PyExc)
  | reply (body : Json) (status : Nat)
  | sent (toWho : Option String) (subject : Option String) (message : Option String)

/-- Shallow embedding of `zpark.v1.Alert.post`: the
`requires_api_token` decorator runs first; then `reqparse` parses
`to` (required), `subject` (required) and `message` (optional) from the
JSON body in declaration order, aborting 400 at the first missing
required argument (`bundle_errors` off); on success the parsed values
go to `api_common.send_spark_alert_message` and its result is returned
unchanged. -/
def alert_post (cfg : AppConfig) (req : AlertRequest) : AlertOutcome :=
  match requires_api_token cfg req.tokenHeader with
  | .denied r => .tokenDenied r
  | .authorized =>
    match req.jsonResult with
    | .error e => .exception e
    | .ok body =>
      match jLookup body "to" with
      | none => .reply (validationErrorBody "to" helpTo) 400
      | some vTo =>
        match jLookup body "subject" with
        | none => .reply (validationErrorBody "subject" helpSubject) 400
        | some vSubject =>
          .sent (convertStr vTo) (convertStr vSubject)
                ((jLookup body "message").bind convertStr)

/-- An inbound request as `Ping.get` observes it. -/
structure PingRequest where
  tokenHeader : Option String

/-- What `Ping.get` does with a request: the guard denies, or
`api_common.ping(api_version=API_VERSION)` is called and its result
returned. -/
inductive PingOutcome where
  | tokenDenied (reason : String)
  | pinged (apiVersion : Nat)
deriving DecidableEq

def API_VERSION_V1 : Nat := 1

def API_VERSION : Nat := API_VERSION_V1

/-- Shallow embedding of `zpark.v1.Ping.get`: the token guard runs
first; on success the request is delegated to `api_common.ping`. -/
def ping_get (cfg : AppConfig) (req : PingRequest) : PingOutcome :=
  match requires_api_token cfg req.tokenHeader with
  | .denied r => .tokenDenied r
  | .authorized => .pinged API_VERSION

/-! ### Helper lemmas -/

theorem wordToBytes_lt (w : Nat) : ∀ x ∈ wordToBytes w, x < 256 := by
  intro x hx
  simp [wordToBytes] at hx
  rcases hx with rfl | rfl | rfl | rfl <;> exact Nat.mod_lt _ (by omega)

theorem mem_sha1_lt (msg : List Nat) : ∀ x ∈ sha1 msg, x < 256 := by
  intro x hx
  simp only [sha1, List.mem_append] at hx
  rcases hx with (((hx | hx) | hx) | hx) | hx <;> exact wordToBytes_lt _ x hx

theorem hexChar_lt : ∀ n < 16, (hexChar n).toNat < 128 := by decide

theorem all_ascii_hexFoldr (bs : List Nat) (h : ∀ x ∈ bs, x < 256) :
    (bs.foldr (fun b acc => hexChar (b / 16) :: hexChar (b % 16) :: acc) []).all
      (fun c => c.toNat < 128) = true := by
  induction bs with
  | nil => rfl
  | cons b rest ih =>
      have hb : b < 256 := h b (by simp)
      simp only [List.foldr_cons, List.all_cons, Bool.and_eq_true, decide_eq_true_eq]
      exact ⟨hexChar_lt _ (by omega), hexChar_lt _ (by omega),
             ih (fun x hx => h x (by simp [hx]))⟩

theorem hexDigest_ascii_of_lt (bs : List Nat) (h : ∀ x ∈ bs, x < 256) :
    asciiStr (hexDigest bs) = true := all_ascii_hexFoldr bs h

theorem ourhmac_ascii (k m : List Nat) :
    asciiStr (hexDigest (hmacSha1 k m)) = true :=
  hexDigest_ascii_of_lt _ (mem_sha1_lt _)

theorem pyInt_some_ne_typeError (s : String) :
    pyInt (some s) ≠ .error .typeError := by
  unfold pyInt
  rcases h : pyIntOfStr s with _ | i <;> simp [h]

/-! ### Claim C5 — missing Content-Length -/

/-- C5: the claim (and spec §4.4 step 1) says a missing `Content-Length`
header yields 400 `{"error": "Bad request"}`. The code instead calls
`int(None)`, which raises `TypeError`; the surrounding
`except ValueError` does not catch it, so the exception escapes the
handler (an HTTP 500 at the framework level) before any body read or
dispatch. The `try/except` and the spec both show the 400 was the
intent; catching only `ValueError` is the slip. -/
theorem c5_missing_length_raises :
    webhook_post ⟨"token", some "s3cret", 100⟩
        ⟨none, some "abc", [123, 125], .ok (.obj [])⟩ =
      ⟨.exception .typeError, false, false⟩ := rfl

/-! ### Claim C6 — absent declared length is not "treated as unknown" -/

/-- C6 counterexample: the claim says an absent declared content length
is Authorized for any configured maximum and the webhook proceeds to
the signature-check stage. On the code, an absent `Content-Length`
makes `int(None)` raise `TypeError`: the request neither dispatches nor
reaches the signature stage (`hmacComputed = false`, `bodyRead =
false`). -/
theorem c6_counterexample :
    webhook_post ⟨"t", none, 50⟩ ⟨none, none, [], .ok (.obj [])⟩ =
        ⟨.exception .typeError, false, false⟩ ∧
    (webhook_post ⟨"t", none, 50⟩ ⟨none, none, [], .ok (.obj [])⟩).outcome ≠
        .dispatched (.obj []) :=
  ⟨rfl, nofun⟩

/-- C6 amended: for every configuration and every request whose
`Content-Length` header is absent, the handler raises an uncaught
`TypeError` from `int(None)`; the body is never read and the
signature-check stage is never reached. -/
theorem c6_amended_absent_length (cfg : AppConfig) (req : WebhookRequest)
    (h : req.contentLength = none) :
    webhook_post cfg req = ⟨.exception .typeError, false, false⟩ := by
  simp [webhook_post, h, pyInt]

/-- C6 amended, witnessed at a concrete request. -/
theorem c6_amended_witness :
    webhook_post ⟨"w", some "k", 9⟩ ⟨none, some "aa", [1, 2], .ok .null⟩ =
      ⟨.exception .typeError, false, false⟩ :=
  c6_amended_absent_length ⟨"w", some "k", 9⟩ ⟨none, some "aa", [1, 2], .ok .null⟩ rfl

/-! ### Claim C7 — malformed Content-Length values -/

/-- C7 counterexample: the claim says a negative declared length such as
`"-5"` is rejected with 400 as "not parseable as a non-negative
integer". Python's `int("-5")` succeeds with `-5`, which is truthy and
not greater than the configured maximum, so the handler proceeds all
the way to dispatch instead of returning 400. -/
theorem c7_counterexample :
    webhook_post ⟨"t", none, 10⟩ ⟨some "-5", none, [123, 125], .ok (.obj [])⟩ =
        ⟨.dispatched (.obj []), true, false⟩ ∧
    (webhook_post ⟨"t", none, 10⟩
        ⟨some "-5", none, [123, 125], .ok (.obj [])⟩).outcome ≠
      .reply (errorBody "Bad request") 400 :=
  ⟨rfl, nofun⟩

/-- C7 amended: a `Content-Length` value that `int()` cannot parse as an
integer at all (optional sign, digit run — e.g. `"abc"`) raises
`ValueError`, which the handler catches and converts to 400
`{"error": "Bad request"}` without reading the body or dispatching.
Negative values parse successfully and are not rejected by this
guard. -/
theorem c7_amended_unparseable_length (cfg : AppConfig) (req : WebhookRequest)
    (s : String) (hs : req.contentLength = some s) (hbad : pyIntOfStr s = none) :
    webhook_post cfg req = ⟨.reply (errorBody "Bad request") 400, false, false⟩ := by
  simp [webhook_post, pyInt, hs, hbad]

/-- C7 amended, witnessed at `Content-Length: abc`. -/
theorem c7_amended_witness :
    webhook_post ⟨"t", some "k", 10⟩ ⟨some "abc", none, [], .ok (.obj [])⟩ =
      ⟨.reply (errorBody "Bad request") 400, false, false⟩ :=
  c7_amended_unparseable_length ⟨"t", some "k", 10⟩
    ⟨some "abc", none, [], .ok (.obj [])⟩ "abc" rfl rfl

/-! ### Claim C8 — oversized declared length rejected before body read -/

/-- C8: when the parsed declared content length exceeds the configured
maximum (a positive integer per §6), the handler returns 413
`{"error": "Too big"}` with `bodyRead = false` and
`hmacComputed = false`: the raw body is never materialized and no HMAC
is computed — the result is independent of the body, the signature
header and the JSON payload. -/
theorem c8_too_big_rejected_before_read (cfg : AppConfig) (req : WebhookRequest)
    (cl : Int) (hmax : 0 < cfg.maxContentLength)
    (hcl : pyInt req.contentLength = .ok cl) (hgt : cl > cfg.maxContentLength) :
    webhook_post cfg req = ⟨.reply (errorBody "Too big") 413, false, false⟩ := by
  have h0 : cl ≠ 0 := by omega
  simp [webhook_post, hcl, h0, hgt]

/-- C8, witnessed at `Content-Length: 50` against `maxContentLength =
10` (spec §8 scenario 7). -/
theorem c8_witness :
    webhook_post ⟨"t", some "k", 10⟩ ⟨some "50", some "sig", [90], .ok .null⟩ =
      ⟨.reply (errorBody "Too big") 413, false, false⟩ :=
  c8_too_big_rejected_before_read ⟨"t", some "k", 10⟩
    ⟨some "50", some "sig", [90], .ok .null⟩ 50 (by decide) rfl (by decide)

/-! ### Claim C2 — no configured secret disables signature checking -/

/-- C2: when `SPARK_WEBHOOK_SECRET` is absent from the configuration,
a request that passes the content-length checks never has an HMAC
computed over it — for every body and every value of the
`X-Spark-Signature` header, including absent — and whenever the body
parses to a JSON object, that parsed payload is dispatched to
`api_common.handle_spark_webhook`. -/
theorem c2_no_secret_no_signature_check (cfg : AppConfig) (req : WebhookRequest)
    (cl : Int) (hsec : cfg.sparkWebhookSecret = none)
    (hcl : pyInt req.contentLength = .ok cl)
    (hsize : ¬(cl ≠ 0 ∧ cl > cfg.maxContentLength)) :
    (webhook_post cfg req).hmacComputed = false ∧
    (∀ fields, req.jsonResult = .ok (.obj fields) →
        webhook_post cfg req = ⟨.dispatched (.obj fields), true, false⟩) := by
  constructor
  · cases hj : req.jsonResult with
    | error e => simp [webhook_post, hcl, hsize, hj]
    | ok j => cases j <;> simp [webhook_post, hcl, hsize, hj, pyGet, hsec]
  · intro fields hj
    simp [webhook_post, hcl, hsize, hj, pyGet, hsec]

/-- C2, witnessed at a concrete secretless deployment: any (here
absent) signature, body dispatched. -/
theorem c2_witness :
    webhook_post ⟨"t", none, 100⟩ ⟨some "0", none, [], .ok (.obj [])⟩ =
      ⟨.dispatched (.obj []), true, false⟩ :=
  (c2_no_secret_no_signature_check ⟨"t", none, 100⟩
      ⟨some "0", none, [], .ok (.obj [])⟩ 0 rfl rfl (by decide)).2 [] rfl

/-! ### Claim C10 — JSON parsing precedes signature verification -/

/-- C10: with an acceptable declared content length, the handler parses
the body (`get_json`, materializing it) and extracts `id`/`name` before
the signature block. If parsing raises, that exception escapes with no
HMAC computed; if the body parses to a non-object (for example JSON
`null`), `reqjson.get` raises `AttributeError` with no HMAC computed;
in both shapes the 403 Unauthorized path is never reached, regardless
of the configured secret and the supplied signature. -/
theorem c10_parse_precedes_signature (cfg : AppConfig) (req : WebhookRequest)
    (cl : Int) (hcl : pyInt req.contentLength = .ok cl)
    (hsize : ¬(cl ≠ 0 ∧ cl > cfg.maxContentLength)) :
    (∀ e, req.jsonResult = .error e →
        webhook_post cfg req = ⟨.exception e, true, false⟩) ∧
    (∀ j, req.jsonResult = .ok j → (∀ fields, j ≠ .obj fields) →
        webhook_post cfg req = ⟨.exception .attributeError, true, false⟩) ∧
    (∀ j, req.jsonResult = .ok j → (∀ fields, j ≠ .obj fields) →
        ∀ b n, (webhook_post cfg req).outcome ≠ .reply b n) := by
  have herr : ∀ e, req.jsonResult = .error e →
      webhook_post cfg req = ⟨.exception e, true, false⟩ := by
    intro e hj
    simp [webhook_post, hcl, hsize, hj]
  have hnonobj : ∀ j, req.jsonResult = .ok j → (∀ fields, j ≠ .obj fields) →
      webhook_post cfg req = ⟨.exception .attributeError, true, false⟩ := by
    intro j hj hne
    cases j with
    | obj fields => exact absurd rfl (hne fields)
    | null => simp [webhook_post, hcl, hsize, hj, pyGet]
    | bool b => simp [webhook_post, hcl, hsize, hj, pyGet]
    | num n => simp [webhook_post, hcl, hsize, hj, pyGet]
    | str s => simp [webhook_post, hcl, hsize, hj, pyGet]
    | arr l => simp [webhook_post, hcl, hsize, hj, pyGet]
  refine ⟨herr, hnonobj, ?_⟩
  intro j hj hne b n hcontra
  rw [hnonobj j hj hne] at hcontra
  exact WebhookOutcome.noConfusion hcontra

/-- C10, witnessed at a JSON `null` body with a configured secret and a
wrong signature: `AttributeError`, not 403. -/
theorem c10_witness :
    webhook_post ⟨"t", some "k", 100⟩
        ⟨some "4", some "deadbeef", utf8Bytes "null", .ok .null⟩ =
      ⟨.exception .attributeError, true, false⟩ :=
  ((c10_parse_precedes_signature ⟨"t", some "k", 100⟩
      ⟨some "4", some "deadbeef", utf8Bytes "null", .ok .null⟩ 4 rfl
      (by decide)).2.1) .null rfl (fun fields h => Json.noConfusion h)

/-! ### Claim C1 — the HMAC signature guard -/

/-- C1 counterexample: the claim says any request whose supplied
signature differs from the computed digest is denied with 403 — its own
example is a single flipped bit of the signature, but flipping the top
bit of the (Latin-1-decoded) hex character `a` yields the non-ASCII
character U+00E1, and `hmac.compare_digest` on a non-ASCII `str` raises
`TypeError` rather than returning unequal. The handler therefore raises
instead of returning the 403 `{"error": "Unauthorized"}` response. -/
theorem c1_counterexample :
    (webhook_post ⟨"tik", some "key", 64⟩
        ⟨some "2", some (String.singleton (Char.ofNat 225)), [123, 125],
         .ok (.obj [])⟩).outcome = .exception .typeError ∧
    (webhook_post ⟨"tik", some "key", 64⟩
        ⟨some "2", some (String.singleton (Char.ofNat 225)), [123, 125],
         .ok (.obj [])⟩).outcome ≠ .reply (errorBody "Unauthorized") 403 := by
  have h1 : (webhook_post ⟨"tik", some "key", 64⟩
      ⟨some "2", some (String.singleton (Char.ofNat 225)), [123, 125],
       .ok (.obj [])⟩).outcome = .exception .typeError := rfl
  exact ⟨h1, fun h => WebhookOutcome.noConfusion (h1 ▸ h)⟩

/-- C1 amended: at the signature-check stage (secret configured,
content-length checks passed, body parsed to a JSON object, signature
header present): a signature equal to the lowercase hex rendering of
`HMAC-SHA1(key = secret, message = rawBody)` authorizes the request and
the payload is dispatched; an ASCII signature that differs is denied
with 403 `{"error": "Unauthorized"}`; a signature containing non-ASCII
characters makes `hmac.compare_digest` raise an uncaught `TypeError`. -/
theorem c1_amended_signature_guard (cfg : AppConfig) (req : WebhookRequest)
    (secret sig : String) (cl : Int) (fields : List (String × Json))
    (hsec : cfg.sparkWebhookSecret = some secret)
    (hcl : pyInt req.contentLength = .ok cl)
    (hsize : ¬(cl ≠ 0 ∧ cl > cfg.maxContentLength))
    (hjson : req.jsonResult = .ok (.obj fields))
    (hsig : req.sparkSignature = some sig) :
    (sig = hexDigest (hmacSha1 (utf8Bytes secret) req.body) →
        (webhook_post cfg req).outcome = .dispatched (.obj fields)) ∧
    (asciiStr sig = true → sig ≠ hexDigest (hmacSha1 (utf8Bytes secret) req.body) →
        (webhook_post cfg req).outcome = .reply (errorBody "Unauthorized") 403) ∧
    (asciiStr sig = false →
        (webhook_post cfg req).outcome = .exception .typeError) := by
  have hascii := ourhmac_ascii (utf8Bytes secret) req.body
  refine ⟨?_, ?_, ?_⟩
  · intro heq
    subst heq
    simp [webhook_post, hcl, hsize, hjson, hsig, hsec, pyGet, compareDigest, hascii]
  · intro ha hne
    have hbeq : (hexDigest (hmacSha1 (utf8Bytes secret) req.body) == sig) = false := by
      rw [beq_eq_false_iff_ne]
      exact fun h => hne h.symm
    simp [webhook_post, hcl, hsize, hjson, hsig, hsec, pyGet, compareDigest,
          hascii, ha, hbeq]
  · intro ha
    simp [webhook_post, hcl, hsize, hjson, hsig, hsec, pyGet, compareDigest, ha]

/-- C1 amended, witnessed at the round-trip input: the signature built
as the hex HMAC-SHA1 of the body under the configured secret is
authorized and dispatched. -/
theorem c1_amended_witness :
    (webhook_post ⟨"tik", some "key", 64⟩
        ⟨some "2", some (hexDigest (hmacSha1 (utf8Bytes "key") [123, 125])),
         [123, 125], .ok (.obj [])⟩).outcome = .dispatched (.obj []) :=
  (c1_amended_signature_guard ⟨"tik", some "key", 64⟩
      ⟨some "2", some (hexDigest (hmacSha1 (utf8Bytes "key") [123, 125])),
       [123, 125], .ok (.obj [])⟩ "key"
      (hexDigest (hmacSha1 (utf8Bytes "key") [123, 125])) 2 [] rfl rfl
      (by decide) rfl rfl).1 rfl

/-! ### Claim C3 — collaborators are reached only through the guards -/

/-- Case shape of `pyInt` results: `TypeError` exactly on `None`,
otherwise `ValueError` or success. -/
theorem pyInt_cases (o : Option String) :
    (pyInt o = .error .typeError ∧ o = none) ∨
    (∃ s, o = some s ∧ pyInt o = .error .valueError) ∨
    (∃ i, pyInt o = .ok i) := by
  cases o with
  | none => exact Or.inl ⟨rfl, rfl⟩
  | some s =>
      rcases h : pyIntOfStr s with _ | i
      · exact Or.inr (Or.inl ⟨s, rfl, by simp [pyInt, h]⟩)
      · exact Or.inr (Or.inr ⟨i, by simp [pyInt, h]⟩)

/-- C3: the collaborator calls are reachable only behind their guards.
`handle_spark_webhook` receives a payload only if the declared length
parsed and did not exceed the maximum, and either no secret is
configured or the supplied signature equals the computed hex HMAC-SHA1
of the raw body; `send_spark_alert_message` and `api_common.ping` are
reached only when the token guard authorized the request. -/
theorem c3_guard_chain_invariant :
    (∀ (cfg : AppConfig) (req : WebhookRequest) (p : Json),
        (webhook_post cfg req).outcome = .dispatched p →
        (∃ cl, pyInt req.contentLength = .ok cl ∧
            ¬(cl ≠ 0 ∧ cl > cfg.maxContentLength)) ∧
        (cfg.sparkWebhookSecret = none ∨
          ∃ secret sig, cfg.sparkWebhookSecret = some secret ∧
            req.sparkSignature = some sig ∧
            sig = hexDigest (hmacSha1 (utf8Bytes secret) req.body))) ∧
    (∀ (cfg : AppConfig) (req : AlertRequest) (t s m : Option String),
        alert_post cfg req = .sent t s m →
        requires_api_token cfg req.tokenHeader = .authorized) ∧
    (∀ (cfg : AppConfig) (req : PingRequest) (v : Nat),
        ping_get cfg req = .pinged v →
        requires_api_token cfg req.tokenHeader = .authorized) := by
  refine ⟨?_, ?_, ?_⟩
  · intro cfg req p h
    rcases hpy : pyInt req.contentLength with e | cl
    · cases e <;> simp [webhook_post, hpy] at h
    · by_cases hsz : (cl ≠ 0 ∧ cl > cfg.maxContentLength)
      · simp [webhook_post, hpy, hsz] at h
      · refine ⟨⟨cl, rfl, hsz⟩, ?_⟩
        rcases hj : req.jsonResult with e | j
        · simp [webhook_post, hpy, hsz, hj] at h
        · cases j with
          | obj fields =>
              rcases hsec : cfg.sparkWebhookSecret with _ | secret
              · exact Or.inl rfl
              · rcases hsg : req.sparkSignature with _ | sparkhmac
                · simp [webhook_post, hpy, hsz, hj, pyGet, hsec, hsg] at h
                · rcases hcd : compareDigest
                      (hexDigest (hmacSha1 (utf8Bytes secret) req.body))
                      sparkhmac with e2 | bb
                  · simp [webhook_post, hpy, hsz, hj, pyGet, hsec, hsg, hcd] at h
                  · cases bb with
                    | false =>
                        simp [webhook_post, hpy, hsz, hj, pyGet, hsec, hsg, hcd] at h
                    | true =>
                        refine Or.inr ⟨secret, sparkhmac, rfl, rfl, ?_⟩
                        have hc : (asciiStr (hexDigest (hmacSha1 (utf8Bytes secret) req.body))
                            && asciiStr sparkhmac) = true := by
                          by_contra hcn
                          unfold compareDigest at hcd
                          rw [if_neg hcn] at hcd
                          exact Except.noConfusion hcd
                        have hbeq : (hexDigest (hmacSha1 (utf8Bytes secret) req.body)
                            == sparkhmac) = true := by
                          unfold compareDigest at hcd
                          rw [if_pos hc] at hcd
                          injection hcd
                        exact (eq_of_beq hbeq).symm
          | null => simp [webhook_post, hpy, hsz, hj, pyGet] at h
          | bool b2 => simp [webhook_post, hpy, hsz, hj, pyGet] at h
          | num n2 => simp [webhook_post, hpy, hsz, hj, pyGet] at h
          | str s2 => simp [webhook_post, hpy, hsz, hj, pyGet] at h
          | arr l2 => simp [webhook_post, hpy, hsz, hj, pyGet] at h
  · intro cfg req t s m h
    rcases hg : requires_api_token cfg req.tokenHeader with _ | r
    · rfl
    · simp [alert_post, hg] at h
  · intro cfg req v h
    rcases hg : requires_api_token cfg req.tokenHeader with _ | r
    · rfl
    · simp [ping_get, hg] at h

/-- C3, witnessed through the alert handler: a request the collaborator
answered did pass the token guard. -/
theorem c3_witness :
    requires_api_token ⟨"tokn", none, 10⟩ (some "tokn") = .authorized :=
  c3_guard_chain_invariant.2.1 ⟨"tokn", none, 10⟩
    ⟨some "tokn", .ok (.obj [("to", .str "a"), ("subject", .str "b")])⟩
    (some "a") (some "b") none rfl

/-! ### Claim C4 — error conversion at the handler boundary -/

/-- C4 counterexample: a request with an acceptable declared length
whose body is JSON `null` makes `reqjson.get` raise `AttributeError`,
which nothing in the handler catches — an exception propagates past the
handler boundary (an HTTP 500 at the framework level) instead of being
converted to a `{"error": ...}` response at the point of detection. -/
theorem c4_counterexample :
    (webhook_post ⟨"tk", some "hush", 200⟩
        ⟨some "4", none, utf8Bytes "null", .ok .null⟩).outcome =
      .exception .attributeError := rfl

/-- Every outcome of `Webhook.post` is an `{"error": m}` reply, a
dispatch, or an escaped exception. -/
theorem webhook_outcome_shape (cfg : AppConfig) (req : WebhookRequest) :
    (∃ m s, (webhook_post cfg req).outcome = .reply (errorBody m) s) ∨
    (∃ p, (webhook_post cfg req).outcome = .dispatched p) ∨
    (∃ e, (webhook_post cfg req).outcome = .exception e) := by
  unfold webhook_post
  split
  · exact Or.inl ⟨"Bad request", 400, rfl⟩
  · exact Or.inr (Or.inr ⟨_, rfl⟩)
  · split
    · exact Or.inl ⟨"Too big", 413, rfl⟩
    · split
      · exact Or.inr (Or.inr ⟨_, rfl⟩)
      · split
        · exact Or.inr (Or.inr ⟨_, rfl⟩)
        · split
          · exact Or.inr (Or.inr ⟨_, rfl⟩)
          · split
            · split
              · exact Or.inl ⟨"Unauthorized", 403, rfl⟩
              · split
                · exact Or.inr (Or.inr ⟨_, rfl⟩)
                · exact Or.inl ⟨"Unauthorized", 403, rfl⟩
                · exact Or.inr (Or.inl ⟨_, rfl⟩)
            · exact Or.inr (Or.inl ⟨_, rfl⟩)

/-- C4 amended: every error response the webhook handler itself returns
is a JSON object with the single key `error`; exceptions do escape the
handler, but only from a missing `Content-Length` header, a failed
`get_json`, a non-object JSON body, or a non-ASCII signature; and the
alert handler's validation failures become 400 responses whose body is
keyed `message`, not `error`. -/
theorem c4_amended_error_conversion :
    (∀ (cfg : AppConfig) (req : WebhookRequest) (b : Json) (n : Nat),
        (webhook_post cfg req).outcome = .reply b n → ∃ m, b = errorBody m) ∧
    (∀ (cfg : AppConfig) (req : WebhookRequest) (e : PyExc),
        (webhook_post cfg req).outcome = .exception e →
        req.contentLength = none ∨
        (∃ ex, req.jsonResult = .error ex) ∨
        (∃ j, req.jsonResult = .ok j ∧ ∀ fields, j ≠ .obj fields) ∨
        (∃ s, req.sparkSignature = some s ∧ asciiStr s = false)) ∧
    (∀ (cfg : AppConfig) (req : AlertRequest) (b : Json) (n : Nat),
        alert_post cfg req = .reply b n →
        ∃ inner, b = .obj [("message", inner)]) := by
  refine ⟨?_, ?_, ?_⟩
  · intro cfg req b n h
    rcases webhook_outcome_shape cfg req with ⟨m, s, hs⟩ | ⟨p, hs⟩ | ⟨e, hs⟩
    · rw [hs] at h
      injection h with h1 h2
      exact ⟨m, h1.symm⟩
    · rw [hs] at h
      exact WebhookOutcome.noConfusion h
    · rw [hs] at h
      exact WebhookOutcome.noConfusion h
  · intro cfg req e h
    rcases pyInt_cases req.contentLength with ⟨hti, hnone⟩ | ⟨s2, hs2, hve⟩ | ⟨i, hok⟩
    · exact Or.inl hnone
    · simp [webhook_post, hve] at h
    · by_cases hsz : (i ≠ 0 ∧ i > cfg.maxContentLength)
      · simp [webhook_post, hok, hsz] at h
      · rcases hj : req.jsonResult with ex | j
        · exact Or.inr (Or.inl ⟨ex, rfl⟩)
        · cases j with
          | obj fields =>
              rcases hsec : cfg.sparkWebhookSecret with _ | secret
              · simp [webhook_post, hok, hsz, hj, pyGet, hsec] at h
              · rcases hsg : req.sparkSignature with _ | sg
                · simp [webhook_post, hok, hsz, hj, pyGet, hsec, hsg] at h
                · rcases hcd : compareDigest
                      (hexDigest (hmacSha1 (utf8Bytes secret) req.body)) sg
                      with e2 | bb
                  · cases hb : asciiStr sg with
                    | false => exact Or.inr (Or.inr (Or.inr ⟨sg, rfl, hb⟩))
                    | true =>
                        exfalso
                        have ha := ourhmac_ascii (utf8Bytes secret) req.body
                        unfold compareDigest at hcd
                        rw [if_pos (by rw [ha, hb]; rfl)] at hcd
                        exact Except.noConfusion hcd
                  · cases bb with
                    | false =>
                        simp [webhook_post, hok, hsz, hj, pyGet, hsec, hsg, hcd] at h
                    | true =>
                        simp [webhook_post, hok, hsz, hj, pyGet, hsec, hsg, hcd] at h
          | null => exact Or.inr (Or.inr (Or.inl ⟨.null, rfl, fun f hx => Json.noConfusion hx⟩))
          | bool b2 =>
              exact Or.inr (Or.inr (Or.inl ⟨.bool b2, rfl, fun f hx => Json.noConfusion hx⟩))
          | num n2 =>
              exact Or.inr (Or.inr (Or.inl ⟨.num n2, rfl, fun f hx => Json.noConfusion hx⟩))
          | str s3 =>
              exact Or.inr (Or.inr (Or.inl ⟨.str s3, rfl, fun f hx => Json.noConfusion hx⟩))
          | arr l2 =>
              exact Or.inr (Or.inr (Or.inl ⟨.arr l2, rfl, fun f hx => Json.noConfusion hx⟩))
  · intro cfg req b n h
    rcases hg : requires_api_token cfg req.tokenHeader with _ | r
    · rcases hj : req.jsonResult with ex | body
      · simp [alert_post, hg, hj] at h
      · rcases hto : jLookup body "to" with _ | vTo
        · have hres : alert_post cfg req = .reply (validationErrorBody "to" helpTo) 400 := by
            simp [alert_post, hg, hj, hto]
          rw [hres] at h
          injection h with h1 h2
          exact ⟨.obj [("to", .str helpTo)], h1.symm⟩
        · rcases hsub : jLookup body "subject" with _ | vS
          · have hres : alert_post cfg req =
                .reply (validationErrorBody "subject" helpSubject) 400 := by
              simp [alert_post, hg, hj, hto, hsub]
            rw [hres] at h
            injection h with h1 h2
            exact ⟨.obj [("subject", .str helpSubject)], h1.symm⟩
          · have hres : alert_post cfg req = .sent (convertStr vTo) (convertStr vS)
                ((jLookup body "message").bind convertStr) := by
              simp [alert_post, hg, hj, hto, hsub]
            rw [hres] at h
            exact AlertOutcome.noConfusion h
    · have hres : alert_post cfg req = .tokenDenied r := by
        simp [alert_post, hg]
      rw [hres] at h
      exact AlertOutcome.noConfusion h

/-- C4 amended, witnessed: the 400 reply for an unparseable
`Content-Length` carries a single-`error`-key body. -/
theorem c4_amended_witness :
    ∃ m, errorBody "Bad request" = errorBody m :=
  c4_amended_error_conversion.1 ⟨"t", none, 5⟩ ⟨some "zz", none, [], .ok .null⟩
    (errorBody "Bad request") 400 rfl

/-! ### Claim C9 — alert argument extraction -/

/-- C9 counterexample: the claim says a non-string `to` (here the JSON
number `5`) yields a validation error without invoking the sender.
`reqparse` with `type=str` instead coerces the value — the
`self.type(value, ...)` cascade ends at `str(5)` — so
`send_spark_alert_message("5", "fire", None)` is invoked and no 400 is
returned. -/
theorem c9_counterexample :
    alert_post ⟨"secret-token", none, 50⟩
        ⟨some "secret-token", .ok (.obj [("to", .num 5), ("subject", .str "fire")])⟩ =
      .sent (some "5") (some "fire") none ∧
    ∀ b n, alert_post ⟨"secret-token", none, 50⟩
        ⟨some "secret-token", .ok (.obj [("to", .num 5), ("subject", .str "fire")])⟩ ≠
      .reply b n := by
  have h1 : alert_post ⟨"secret-token", none, 50⟩
      ⟨some "secret-token", .ok (.obj [("to", .num 5), ("subject", .str "fire")])⟩ =
      .sent (some "5") (some "fire") none := rfl
  exact ⟨h1, fun b n h => AlertOutcome.noConfusion (h1 ▸ h)⟩

/-- C9 amended: for a token-authorized request whose body parsed to a
JSON object — if `to` (or, `to` present, `subject`) is absent, the
handler replies 400 with that argument's help text and the sender is
never invoked; if both keys are present, their values are coerced as
`reqparse` does (`None` for JSON `null`, `str()` otherwise — non-string
values are not rejected) and
`send_spark_alert_message(to, subject, message)` is called, `message`
defaulting to `None` when absent, its result returned unchanged. -/
theorem c9_amended_alert_extraction (cfg : AppConfig) (req : AlertRequest)
    (fields : List (String × Json))
    (htok : requires_api_token cfg req.tokenHeader = .authorized)
    (hjson : req.jsonResult = .ok (.obj fields)) :
    (fields.lookup "to" = none →
        alert_post cfg req = .reply (validationErrorBody "to" helpTo) 400) ∧
    (∀ vTo, fields.lookup "to" = some vTo → fields.lookup "subject" = none →
        alert_post cfg req = .reply (validationErrorBody "subject" helpSubject) 400) ∧
    (∀ vTo vSubject, fields.lookup "to" = some vTo →
        fields.lookup "subject" = some vSubject →
        alert_post cfg req =
          .sent (convertStr vTo) (convertStr vSubject)
                ((fields.lookup "message").bind convertStr)) := by
  refine ⟨?_, ?_, ?_⟩
  · intro hto
    simp [alert_post, htok, hjson, jLookup, hto]
  · intro vTo hto hsub
    simp [alert_post, htok, hjson, jLookup, hto, hsub]
  · intro vTo vSubject hto hsub
    simp [alert_post, htok, hjson, jLookup, hto, hsub]

/-- C9 amended, witnessed at the spec §8 scenario 5 input. -/
theorem c9_amended_witness :
    alert_post ⟨"tok9", none, 10⟩
        ⟨some "tok9", .ok (.obj [("to", .str "room1"), ("subject", .str "fire")])⟩ =
      .sent (some "room1") (some "fire") none :=
  (c9_amended_alert_extraction ⟨"tok9", none, 10⟩
      ⟨some "tok9", .ok (.obj [("to", .str "room1"), ("subject", .str "fire")])⟩
      [("to", .str "room1"), ("subject", .str "fire")] rfl rfl).2.2
    (.str "room1") (.str "fire") rfl rfl
